import Mathlib

/-!
Verification of the `DestinyEngine` core of `life_terminal.py` against its
natural-language specification.

The engine consumes a four-pillar sexagenary record (eight characters,
supplied by the external `lunar_python` calendar adapter), a birth time,
coordinates and a gender tag, and derives an element-strength vector, a
favored element, auxiliary "shen sha" tags, an archetype pattern, and two
candlestick-style time series.

Modelling conventions:
* the eight pillar characters are a `Pillars` structure of `Char`s, an
  opaque input (pillar computation is external to the engine);
* machine floats become `ℚ`; the deterministic float quantities whose exact
  transcendental values are irrelevant to every claim (the sine "hetu wave",
  the Gaussian draws of the process-global generators) are explicit stream
  parameters `ℕ → ℚ`, with the stream *position* threaded explicitly where
  the source advances a process-global generator;
* CPython's Mersenne Twister, as reseeded by `random.seed(self.seed)`, is a
  pure function of the seed and the draw index; it is modelled by the
  concrete mixing function `mtNat` (its exact values matter to no claim,
  only its functional dependence on seed and index);
* Python's salted string hash (process-dependent via `PYTHONHASHSEED`) is a
  parameter `H : String → ℤ` of the seed derivation, and CPython's tuple
  hash combinator is modelled by the polynomial fold `tupleCombine`.
-/

/-- The five elements, in the insertion order of the counts dict of
`_calc_wuxing`: 金, 木, 水, 火, 土. -/
inductive Element : Type
  | jin : Element
  | mu : Element
  | shui : Element
  | huo : Element
  | tu : Element
deriving DecidableEq

/-- The Chinese single-character key the source uses for each element. -/
def elemStr : Element → String
  | Element.jin => "金"
  | Element.mu => "木"
  | Element.shui => "水"
  | Element.huo => "火"
  | Element.tu => "土"

/-- The eight pillar characters (year/month/day/hour stem and branch),
as produced by the external calendar adapter. -/
structure Pillars : Type where
  yearGan : Char
  yearZhi : Char
  monthGan : Char
  monthZhi : Char
  dayGan : Char
  dayZhi : Char
  timeGan : Char
  timeZhi : Char
deriving DecidableEq

/-- The 22-entry stem/branch → element classification table `wx_map` of
`_calc_wuxing` (line 135-136). Characters outside the table map to `none`. -/
def wxMap : Char → Option Element
  | '甲' => some Element.mu
  | '乙' => some Element.mu
  | '丙' => some Element.huo
  | '丁' => some Element.huo
  | '戊' => some Element.tu
  | '己' => some Element.tu
  | '庚' => some Element.jin
  | '辛' => some Element.jin
  | '壬' => some Element.shui
  | '癸' => some Element.shui
  | '子' => some Element.shui
  | '丑' => some Element.tu
  | '寅' => some Element.mu
  | '卯' => some Element.mu
  | '辰' => some Element.tu
  | '巳' => some Element.huo
  | '午' => some Element.huo
  | '未' => some Element.tu
  | '申' => some Element.jin
  | '酉' => some Element.jin
  | '戌' => some Element.tu
  | '亥' => some Element.shui
  | _ => none

/-- The eight characters of a pillar set in the iteration order of
`_calc_wuxing` (line 137-138). -/
def pillarChars (p : Pillars) : List Char :=
  [p.yearGan, p.yearZhi, p.monthGan, p.monthZhi, p.dayGan, p.dayZhi, p.timeGan, p.timeZhi]

/-- One step of the counting loop of `_calc_wuxing`: if the character is in
the table, add 1 to its element's bucket (`cnt[wx] += 1`), else skip. -/
def addChar (cnt : Element → ℕ) (c : Char) : Element → ℕ :=
  match wxMap c with
  | some e => fun x => if x = e then cnt x + 1 else cnt x
  | none => cnt

/-- `_calc_wuxing` (lines 133-141): count, with flat weight 1, how many of
the eight pillar characters map to each element. -/
def calc_wuxing (p : Pillars) : Element → ℕ :=
  (pillarChars p).foldl addChar (fun _ => 0)

/-- Total weight of a count vector (sum over the five buckets). -/
def sumCnt (cnt : Element → ℕ) : ℕ :=
  cnt Element.jin + cnt Element.mu + cnt Element.shui + cnt Element.huo + cnt Element.tu

/-- All eight characters of the pillar set are in the classification table. -/
def validPillars (p : Pillars) : Bool :=
  (pillarChars p).all fun c => (wxMap c).isSome

/-- Python's `min(dict, key=dict.get)`: scan the keys left to right, keeping
the earliest key whose value is strictly smaller than the current best. -/
def argminFirst (cnt : Element → ℕ) : Element → List Element → Element
  | best, [] => best
  | best, k :: rest => argminFirst cnt (if cnt k < cnt best then k else best) rest

/-- `_get_favored` (lines 143-148): the day-master element string is read and
defaulted to "土" when it is not a key of the counts dict, but the result is
only the globally weakest element, `min(self.wuxing_strength, key=...)`,
scanning the keys in dict insertion order 金, 木, 水, 火, 土. -/
def get_favored (cnt : Element → ℕ) (dayWuXing : String) : Element :=
  let day_wx := if dayWuXing = "金" ∨ dayWuXing = "木" ∨ dayWuXing = "水" ∨
      dayWuXing = "火" ∨ dayWuXing = "土" then dayWuXing else "土"
  let _ := day_wx
  argminFirst cnt Element.jin [Element.mu, Element.shui, Element.huo, Element.tu]

/-- The element generated by a given element in the generate cycle
Wood→Fire→Earth→Metal→Water→Wood (its "child"). -/
def genChild : Element → Element
  | Element.mu => Element.huo
  | Element.huo => Element.tu
  | Element.tu => Element.jin
  | Element.jin => Element.shui
  | Element.shui => Element.mu

/-- The element that generates a given element (its "parent" in the
generate cycle). -/
def genParent : Element → Element
  | Element.huo => Element.mu
  | Element.tu => Element.huo
  | Element.jin => Element.tu
  | Element.shui => Element.jin
  | Element.mu => Element.shui

/-- Modelled from the spec: the percentage normalization of the element
counts (§3 ElementVector, §4.1 "Normalize to percentages of the total",
§7 "if an element's total weight is zero, treat as 1 before normalizing").
`src/life_terminal.py` keeps only the raw counts; the normalization step is
in the repository variants outside `src/`. -/
def elementPercent (cnt : Element → ℕ) (e : Element) : ℚ :=
  let total : ℕ := sumCnt cnt
  let denom : ℚ := if total = 0 then 1 else (total : ℚ)
  100 * (cnt e : ℚ) / denom

/-- Modelled from the spec: the §4.3 strength-threshold favored-element rule
(ally score = percentage of the day master's element plus its parent's;
above 45 pick the day master's child, otherwise its parent). Stated only to
be compared with the source's `get_favored`. -/
def specFavoredElement (cnt : Element → ℕ) (dayMaster : Element) : Element :=
  let ally := elementPercent cnt dayMaster + elementPercent cnt (genParent dayMaster)
  if 45 < ally then genChild dayMaster else genParent dayMaster

/-- An auxiliary ("shen sha") tag: name, visual category, description. -/
structure ShenShaTag : Type where
  name : String
  tagType : String
  desc : String
deriving DecidableEq

def tianyiTag : ShenShaTag := ⟨"天乙贵人", "gold", "贵人扶助，一生多助"⟩

def wenchangTag : ShenShaTag := ⟨"文昌贵人", "purple", "聪明智慧，科名显赫"⟩

def taohuaTag : ShenShaTag := ⟨"桃花星", "pink", "人缘极佳，异性缘旺"⟩

def yimaTag : ShenShaTag := ⟨"驿马星", "blue", "动中生财，宜远行发展"⟩

def plainTag : ShenShaTag := ⟨"命格平稳", "gray", "安稳厚重，自力更生"⟩

/-- `_calc_shen_sha` (lines 162-169): four sequential `random.random()` draws
`r0..r3` from the global generator (which `__init__` seeded with the engine
seed); a tag is appended when its draw exceeds its threshold (0.5, 0.4, 0.5,
0.4), and when no tag fired a single plain tag is returned. The pillar set is
never read. -/
def calcShenSha (r0 r1 r2 r3 : ℚ) : List ShenShaTag :=
  let res := (if r0 > 1/2 then [tianyiTag] else []) ++
    (if r1 > 2/5 then [wenchangTag] else []) ++
    (if r2 > 1/2 then [taohuaTag] else []) ++
    (if r3 > 2/5 then [yimaTag] else [])
  if res = [] then [plainTag] else res

/-- The fixed archetype list of `_get_pattern` (lines 151-159). -/
def patterns : List (String × String) :=
  [("正官格", "一生正直清廉，宜从公职"),
   ("七杀格", "胆大心雄，宜创业开拓"),
   ("食神格", "福禄双全，享口福之乐"),
   ("伤官格", "才华横溢，名利双收"),
   ("正财格", "勤俭持家，财源稳定"),
   ("偏财格", "横财就手，人脉广阔"),
   ("印绶格", "学识渊博，贵人扶持")]

/-- Stand-in for CPython's Mersenne Twister output: once `random.seed(s)` has
run, the k-th value drawn from the global generator is a pure function of
`(s, k)`. The exact values matter to no claim here, only this functional
dependence, so a concrete mixing function is used. -/
def mtNat (s : ℤ) (n : ℕ) : ℕ :=
  (s.natAbs * 2654435761 + n * 40503 + 1013904223) % 4294967296

/-- A `random.random()` draw in `[0, 1)`, as a function of the seed and the
draw index (see `mtNat`). -/
def pyUnit (s : ℤ) (n : ℕ) : ℚ :=
  ((mtNat s n % 1024 : ℕ) : ℚ) / 1024

/-- `random.choice(patterns)` in `_get_pattern` (line 160): the seeded global
generator picks an index below 7 (here the stand-in draw taken modulo 7);
draws 0-3 were consumed by `_calc_shen_sha`, so the choice uses draw 4. -/
def pickPattern (k : ℕ) : String × String :=
  match k % 7 with
  | 0 => ("正官格", "一生正直清廉，宜从公职")
  | 1 => ("七杀格", "胆大心雄，宜创业开拓")
  | 2 => ("食神格", "福禄双全，享口福之乐")
  | 3 => ("伤官格", "才华横溢，名利双收")
  | 4 => ("正财格", "勤俭持家，财源稳定")
  | 5 => ("偏财格", "横财就手，人脉广阔")
  | _ => ("印绶格", "学识渊博，贵人扶持")

/-- The two-character pillar string (stem then branch), as returned by the
calendar adapter's `getYear()`/`getMonth()`/`getDay()`/`getTime()`. -/
def pillarStr (g z : Char) : String :=
  String.mk [g, z]

/-- Stand-in for CPython's tuple-hash combinator: the component hashes are
mixed by a fixed polynomial fold. The exact mixing constants matter to no
claim, only that the result depends on the component hashes. -/
def tupleCombine (l : List ℤ) : ℤ :=
  l.foldl (fun a h => a * 1000003 + h) 5381

/-- Stand-in for CPython's hash of a float value: unlike string hashing it is
not salted, so it is modelled as a fixed function of the rational value. -/
def qHash (q : ℚ) : ℤ :=
  q.num * 2 + (q.den : ℤ)

/-- The seed derivation of `__init__` (line 118):
`hash((year_pillar, month_pillar, day_pillar, time_pillar, hour, minute,
lat, lng))`. The four pillar components are strings, hashed by the
process-salted string hash `H` (CPython salts `str` hashing per process via
`PYTHONHASHSEED`); the numeric components hash stably. -/
def pySeed (H : String → ℤ) (p : Pillars) (hour minute : ℕ) (lat lng : ℚ) : ℤ :=
  tupleCombine [H (pillarStr p.yearGan p.yearZhi), H (pillarStr p.monthGan p.monthZhi),
    H (pillarStr p.dayGan p.dayZhi), H (pillarStr p.timeGan p.timeZhi),
    (hour : ℤ), (minute : ℤ), qHash lat, qHash lng]

/-- `_gan_to_hetu` (lines 129-131), default 5 for characters off the table. -/
def ganToHetu : Char → ℕ
  | '甲' => 6
  | '乙' => 1
  | '丙' => 9
  | '丁' => 4
  | '戊' => 5
  | '己' => 10
  | '庚' => 2
  | '辛' => 7
  | '壬' => 3
  | '癸' => 8
  | _ => 5

/-- The derived fields of a constructed `DestinyEngine`. -/
structure DestinyEngine : Type where
  seed : ℤ
  true_solar_diff : ℚ
  day_gan_num : ℕ
  wuxing_strength : Element → ℕ
  favored : Element
  shen_sha : List ShenShaTag
  pattern : String × String
  gender : String

/-- `DestinyEngine.__init__` (lines 103-127). The pillar set and the
day-pillar element string come from the external calendar adapter and are
inputs here. `H` is the process's (salted) string-hash function; `g` is the
state of the process-global `random` generator at entry, which line 119
(`random.seed(self.seed)`) overwrites — so `g` is dead, exactly as in the
source. `_calc_shen_sha` then consumes draws 0-3 and `_get_pattern` draw 4. -/
def engineInit (p : Pillars) (dayWuXing : String) (hour minute : ℕ)
    (lat lng : ℚ) (gender : String) (H : String → ℤ) (g : ℤ × ℕ) : DestinyEngine :=
  let _ := g
  let seed := pySeed H p hour minute lat lng
  let wuxing := calc_wuxing p
  { seed := seed
    true_solar_diff := (lng - 120) * 4
    day_gan_num := ganToHetu p.dayGan
    wuxing_strength := wuxing
    favored := get_favored wuxing dayWuXing
    shen_sha := calcShenSha (pyUnit seed 0) (pyUnit seed 1) (pyUnit seed 2) (pyUnit seed 3)
    pattern := pickPattern (mtNat seed 4)
    gender := gender }

/-- `_get_year_yun` (lines 171-175): `(day_gan_num + age) % 10`, 0 bumped to
10, then the fixed ten-entry map (default "土运", unreachable). -/
def yearYun (dayGanNum age : ℕ) : String :=
  let base0 := (dayGanNum + age) % 10
  let base := if base0 = 0 then 10 else base0
  match base with
  | 1 => "水运"
  | 2 => "金运"
  | 3 => "水运"
  | 4 => "木运"
  | 5 => "土运"
  | 6 => "木运"
  | 7 => "火运"
  | 8 => "土运"
  | 9 => "金运"
  | _ => "土运"

/-- One row of the life-path DataFrame (the rolling-mean overlay columns and
`self.low_ages`, which are appended to the finished frame for display only,
are not part of the per-point data). -/
structure LifePoint : Type where
  age : ℕ
  year : ℤ
  openV : ℚ
  closeV : ℚ
  highV : ℚ
  lowV : ℚ
  status : String
  yun : String
deriving DecidableEq

/-- The engine fields `generate_life_kline` reads: favored element,
day-gan hetu number, number of shen-sha tags, birth year. -/
structure LifeParams : Type where
  favored : Element
  dayGanNum : ℕ
  shenShaLen : ℕ
  birthYear : ℤ

/-- One iteration of the age loop of `generate_life_kline` (lines 182-205).
`wave age` is the float value of `np.sin(age / 9 * np.pi) * 8` (a fixed
function of the age whose exact transcendental value no claim depends on);
`noise pos` is the value `np.random.normal(0, 5)` returns at position `pos`
of the process-global numpy stream that line 120 seeded. -/
def lifeStep (P : LifeParams) (wave noise : ℕ → ℚ) (pos age : ℕ) (price : ℚ) : LifePoint :=
  let yun := yearYun P.dayGanNum age
  let base_score : ℚ := if yun.dropRight 1 = elemStr P.favored then 10 else 0
  let bonus : ℚ := (P.shenShaLen : ℚ) * 3
  let change0 := base_score / 2 + bonus / 4 + wave age + noise pos
  let change := if age % 12 = 0 ∧ 0 < age then change0 - 16 else change0
  let close := max 10 (price + change)
  let status := if change > 14 then "大吉大利"
    else if change > 6 then "亨通顺利"
    else if change < -12 then "低谷考验"
    else "平稳有序"
  { age := age
    year := P.birthYear + (age : ℤ)
    openV := price
    closeV := close
    highV := close + |change| * (3/2)
    lowV := price - |change| * (3/2)
    status := status
    yun := yun }

/-- The age loop of `generate_life_kline`, threading the running price and
the numpy stream position (one draw per age). -/
def genLifeAux (P : LifeParams) (wave noise : ℕ → ℚ) :
    List ℕ → ℕ → ℚ → List LifePoint
  | [], _, _ => []
  | a :: rest, pos, price =>
    let pt := lifeStep P wave noise pos a price
    pt :: genLifeAux P wave noise rest (pos + 1) pt.closeV

/-- `generate_life_kline` (lines 177-211): ages 0..100 starting at price
100.0, drawing one numpy-normal sample per age from the process-global
stream; `pos` is the stream position at entry (0 immediately after
`__init__`), and the second component is the position at exit — the source
does not reseed here, so a following call continues the stream. -/
def generate_life_kline (P : LifeParams) (wave noise : ℕ → ℚ) (pos : ℕ) :
    List LifePoint × ℕ :=
  (genLifeAux P wave noise (List.range 101) pos 100, pos + 101)

/-- One row of the daily-path DataFrame; `dayIndex` is the offset in days
from January 1 (`start + timedelta(days=i)`). -/
structure DailyPoint : Type where
  dayIndex : ℕ
  openV : ℚ
  closeV : ℚ
  highV : ℚ
  lowV : ℚ
deriving DecidableEq

/-- One iteration of the day loop of `generate_daily_kline` (lines 219-224);
`noise i` is the value `random.gauss(0, 3.5)` returns at position `i` of the
stream that `random.seed(self.seed + year)` freshly initialized. -/
def dailyStep (noise : ℕ → ℚ) (i : ℕ) (price : ℚ) : DailyPoint :=
  let change := noise i
  let close := max 30 (price + change)
  { dayIndex := i
    openV := price
    closeV := close
    highV := close + |change|
    lowV := price - |change| }

/-- The day loop of `generate_daily_kline`, threading the running price. -/
def genDailyAux (noise : ℕ → ℚ) : List ℕ → ℚ → List DailyPoint
  | [], _ => []
  | i :: rest, price =>
    let pt := dailyStep noise i price
    pt :: genDailyAux noise rest pt.closeV

/-- The leap-year test of line 215:
`year % 4 == 0 and (year % 100 != 0 or year % 400 == 0)`. -/
def leapRule (year : ℕ) : Bool :=
  year % 4 == 0 && (year % 100 != 0 || year % 400 == 0)

/-- `generate_daily_kline` (lines 213-225): 365 or 366 days starting at
price 100.0. Line 218 reseeds the global `random` generator with
`self.seed + year` before the loop, so every invocation reads the same
`(seed + year)`-determined gauss stream from index 0; that fresh stream is
the `noise` parameter. -/
def generate_daily_kline (noise : ℕ → ℚ) (year : ℕ) : List DailyPoint :=
  genDailyAux noise (List.range (if leapRule year then 366 else 365)) 100

/-! ### Helper lemmas -/

lemma argminFirst_le (cnt : Element → ℕ) :
    ∀ (l : List Element) (best : Element),
      cnt (argminFirst cnt best l) ≤ cnt best ∧
      ∀ k ∈ l, cnt (argminFirst cnt best l) ≤ cnt k := by
  intro l
  induction l with
  | nil =>
    intro best
    refine ⟨le_refl _, ?_⟩
    intro k hk
    simp at hk
  | cons k rest ih =>
    intro best
    by_cases h : cnt k < cnt best
    · rcases ih k with ⟨h1, h2⟩
      simp only [argminFirst, if_pos h]
      refine ⟨h1.trans (le_of_lt h), ?_⟩
      intro x hx
      rcases List.mem_cons.mp hx with hx | hx
      · exact hx ▸ h1
      · exact h2 x hx
    · rcases ih best with ⟨h1, h2⟩
      simp only [argminFirst, if_neg h]
      refine ⟨h1, ?_⟩
      intro x hx
      rcases List.mem_cons.mp hx with hx | hx
      · exact hx ▸ h1.trans (le_of_not_lt h)
      · exact h2 x hx

lemma foldl_addChar_apply (l : List Char) :
    ∀ (cnt : Element → ℕ) (e : Element),
      l.foldl addChar cnt e = cnt e + l.countP (fun c => wxMap c = some e) := by
  induction l with
  | nil => intro cnt e; simp
  | cons c rest ih =>
    intro cnt e
    rw [List.foldl_cons, ih, List.countP_cons]
    have hstep : addChar cnt c e = cnt e + (if wxMap c = some e then 1 else 0) := by
      cases hc : wxMap c with
      | none => simp [addChar, hc]
      | some e' =>
        by_cases he : e = e'
        · subst he; simp [addChar, hc]
        · simp [addChar, hc, he, Option.some_inj, Ne.symm he]
    rw [hstep]
    by_cases hc : wxMap c = some e
    · simp [hc]
      omega
    · simp [hc]

lemma sumCnt_addChar (cnt : Element → ℕ) (c : Char) :
    sumCnt (addChar cnt c) = sumCnt cnt + (if (wxMap c).isSome then 1 else 0) := by
  cases hc : wxMap c with
  | none => simp [addChar, hc]
  | some e => cases e <;> simp [sumCnt, addChar, hc] <;> ring

lemma sumCnt_foldl (l : List Char) :
    ∀ cnt : Element → ℕ,
      sumCnt (l.foldl addChar cnt) = sumCnt cnt + l.countP (fun c => (wxMap c).isSome) := by
  induction l with
  | nil => intro cnt; simp
  | cons c rest ih =>
    intro cnt
    rw [List.foldl_cons, ih, sumCnt_addChar, List.countP_cons]
    by_cases hc : (wxMap c).isSome
    · simp [hc]
      omega
    · simp [hc]

lemma sumCnt_valid (p : Pillars) (h : validPillars p = true) :
    sumCnt (calc_wuxing p) = 8 := by
  have hall : ∀ c ∈ pillarChars p, ((wxMap c).isSome : Bool) = true := by
    simpa [validPillars, List.all_eq_true] using h
  have hcount : (pillarChars p).countP (fun c => (wxMap c).isSome) = (pillarChars p).length :=
    List.countP_eq_length.mpr hall
  have : sumCnt (calc_wuxing p) = sumCnt (fun _ => 0) + (pillarChars p).countP (fun c => (wxMap c).isSome) := by
    rw [calc_wuxing]
    exact sumCnt_foldl (pillarChars p) (fun _ => 0)
  rw [this, hcount]
  simp [sumCnt, pillarChars]

lemma pickPattern_mem (k : ℕ) : pickPattern k ∈ patterns := by
  unfold pickPattern
  have h : k % 7 = 0 ∨ k % 7 = 1 ∨ k % 7 = 2 ∨ k % 7 = 3 ∨ k % 7 = 4 ∨ k % 7 = 5 ∨ k % 7 = 6 := by
    omega
  rcases h with h | h | h | h | h | h | h <;> rw [h] <;> decide

lemma shape_core (price change k floor : ℚ) (hk : 1 ≤ k) :
    max price (max floor (price + change)) ≤ max floor (price + change) + |change| * k ∧
    price - |change| * k ≤ min price (max floor (price + change)) ∧
    floor ≤ max floor (price + change) := by
  have h1 : 0 ≤ |change| := abs_nonneg change
  have h2 : -|change| ≤ change := neg_abs_le change
  have h3 : change ≤ |change| := le_abs_self change
  have h4 : 0 ≤ |change| * k := mul_nonneg h1 (by linarith)
  have h5 : |change| ≤ |change| * k := by nlinarith
  have hcl : price + change ≤ max floor (price + change) := le_max_right _ _
  refine ⟨max_le (by linarith) (by linarith), le_min (by linarith) (by linarith), le_max_left _ _⟩

lemma genLifeAux_length (P : LifeParams) (wave noise : ℕ → ℚ) :
    ∀ (l : List ℕ) (pos : ℕ) (price : ℚ),
      (genLifeAux P wave noise l pos price).length = l.length := by
  intro l
  induction l with
  | nil => intro pos price; rfl
  | cons a rest ih => intro pos price; simp [genLifeAux, ih]

lemma genDailyAux_length (noise : ℕ → ℚ) :
    ∀ (l : List ℕ) (price : ℚ), (genDailyAux noise l price).length = l.length := by
  intro l
  induction l with
  | nil => intro price; rfl
  | cons a rest ih => intro price; simp [genDailyAux, ih]

lemma lifeStep_shape (P : LifeParams) (wave noise : ℕ → ℚ) (pos age : ℕ) (price : ℚ) :
    max (lifeStep P wave noise pos age price).openV (lifeStep P wave noise pos age price).closeV ≤
      (lifeStep P wave noise pos age price).highV ∧
    (lifeStep P wave noise pos age price).lowV ≤
      min (lifeStep P wave noise pos age price).openV (lifeStep P wave noise pos age price).closeV ∧
    10 ≤ (lifeStep P wave noise pos age price).closeV := by
  exact shape_core price _ (3/2) 10 (by norm_num)

lemma dailyStep_shape (noise : ℕ → ℚ) (i : ℕ) (price : ℚ) :
    max (dailyStep noise i price).openV (dailyStep noise i price).closeV ≤
      (dailyStep noise i price).highV ∧
    (dailyStep noise i price).lowV ≤
      min (dailyStep noise i price).openV (dailyStep noise i price).closeV ∧
    30 ≤ (dailyStep noise i price).closeV := by
  have h := shape_core price (noise i) 1 30 (le_refl 1)
  rw [mul_one] at h
  exact h

lemma genLifeAux_shape (P : LifeParams) (wave noise : ℕ → ℚ) :
    ∀ (l : List ℕ) (pos : ℕ) (price : ℚ) (pt : LifePoint),
      pt ∈ genLifeAux P wave noise l pos price →
      max pt.openV pt.closeV ≤ pt.highV ∧ pt.lowV ≤ min pt.openV pt.closeV ∧ 10 ≤ pt.closeV := by
  intro l
  induction l with
  | nil => intro pos price pt hpt; simp [genLifeAux] at hpt
  | cons a rest ih =>
    intro pos price pt hpt
    simp only [genLifeAux, List.mem_cons] at hpt
    rcases hpt with h | h
    · subst h
      exact lifeStep_shape P wave noise pos a price
    · exact ih _ _ _ h

lemma genDailyAux_shape (noise : ℕ → ℚ) :
    ∀ (l : List ℕ) (price : ℚ) (pt : DailyPoint),
      pt ∈ genDailyAux noise l price →
      max pt.openV pt.closeV ≤ pt.highV ∧ pt.lowV ≤ min pt.openV pt.closeV ∧ 30 ≤ pt.closeV := by
  intro l
  induction l with
  | nil => intro price pt hpt; simp [genDailyAux] at hpt
  | cons a rest ih =>
    intro price pt hpt
    simp only [genDailyAux, List.mem_cons] at hpt
    rcases hpt with h | h
    · subst h
      exact dailyStep_shape noise a price
    · exact ih _ _ h

/-! ### Claim theorems -/

/-- Claim C1 (code-bug evidence): the seed of line 118 is Python's runtime
`hash` of a tuple containing the four pillar *strings*, and CPython salts
string hashing per process; with the process hash function a parameter, two
processes (here: two string-hash functions) give a different Seed for the
very same birth record, so the seed derivation is not stable across
processes. -/
theorem seed_not_process_stable :
    pySeed (fun _ => 0) ⟨'庚', '午', '辛', '巳', '壬', '申', '癸', '酉'⟩ 0 0 0 0 ≠
      pySeed (fun _ => 1) ⟨'庚', '午', '辛', '巳', '壬', '申', '癸', '酉'⟩ 0 0 0 0 := by
  norm_num [pySeed, tupleCombine, qHash]

/-- The concrete pillar set used against claim C2: element counts
金 0, 木 3, 水 2, 火 2, 土 1, with a wood day master (day stem 乙). -/
def Pc2 : Pillars := ⟨'壬', '寅', '丙', '卯', '乙', '子', '丁', '丑'⟩

/-- Claim C2 counterexample: on `Pc2` the source's `_get_favored` returns 金
(the globally weakest element), while the spec's §4.3 strength-threshold
rule returns 火 (ally score 62.5 > 45, so the wood day master's child): the
resolver does not implement the strength-threshold rule. -/
theorem favored_counterexample :
    get_favored (calc_wuxing Pc2) "木" ≠ specFavoredElement (calc_wuxing Pc2) Element.mu := by
  have e1 : get_favored (calc_wuxing Pc2) "木" = Element.jin := by decide
  have hj : calc_wuxing Pc2 Element.jin = 0 := by decide
  have hm : calc_wuxing Pc2 Element.mu = 3 := by decide
  have hs : calc_wuxing Pc2 Element.shui = 2 := by decide
  have hh : calc_wuxing Pc2 Element.huo = 2 := by decide
  have ht : calc_wuxing Pc2 Element.tu = 1 := by decide
  have e2 : specFavoredElement (calc_wuxing Pc2) Element.mu = Element.huo := by
    norm_num [specFavoredElement, elementPercent, sumCnt, genParent, genChild, hj, hm, hs, hh, ht]
  rw [e1, e2]
  decide

/-- Claim C2 (amended): for every ElementVector the resolver returns an
element of globally minimal count (Python's `min` over the counts dict), and
the day-master string has no influence on the result. -/
theorem favored_is_global_weakest (cnt : Element → ℕ) (d1 d2 : String) :
    (∀ e : Element, cnt (get_favored cnt d1) ≤ cnt e) ∧
      get_favored cnt d1 = get_favored cnt d2 := by
  constructor
  · intro e
    have h := argminFirst_le cnt [Element.mu, Element.shui, Element.huo, Element.tu] Element.jin
    have hg : get_favored cnt d1 =
        argminFirst cnt Element.jin [Element.mu, Element.shui, Element.huo, Element.tu] := rfl
    rw [hg]
    cases e with
    | jin => exact h.1
    | mu => exact h.2 _ (by simp)
    | shui => exact h.2 _ (by simp)
    | huo => exact h.2 _ (by simp)
    | tu => exact h.2 _ (by simp)
  · rfl

/-- Concrete life-path parameters used against claim C3. -/
def P3 : LifeParams := ⟨Element.shui, 5, 1, 2000⟩

/-- Claim C3 (code-bug evidence): `generate_life_kline` draws from the
process-global numpy stream without reseeding, so a second invocation on the
same engine starts at the stream position the first invocation left behind
(the second component of the result) and produces a different series — here
shown for the stream whose k-th normal draw is k. -/
theorem life_kline_second_call_differs :
    (generate_life_kline P3 (fun _ => 0) (fun n => (n : ℚ)) 0).1 ≠
      (generate_life_kline P3 (fun _ => 0) (fun n => (n : ℚ))
        ((generate_life_kline P3 (fun _ => 0) (fun n => (n : ℚ)) 0).2)).1 := by
  intro h
  have h0 := congrArg (fun l => l.head?) h
  simp only [generate_life_kline] at h0
  rw [List.range_succ_eq_map] at h0
  simp only [genLifeAux, List.head?_cons, Option.some.injEq] at h0
  have h1 := congrArg LifePoint.closeV h0
  simp only [lifeStep] at h1
  norm_num [yearYun, elemStr, P3] at h1
  rw [if_neg (by decide : ¬("土运".dropRight 1 = "水"))] at h1
  rw [max_eq_right (by norm_num), max_eq_right (by norm_num)] at h1
  norm_num at h1

/-- Claim C4 counterexample: the auxiliary-tag evaluator never reads the
pillar set; its output varies with the four RNG draws (all-zero draws give
the plain tag, all-one draws give all four stars), so it is not a
table-driven function of the PillarSet alone. -/
theorem shen_sha_counterexample : calcShenSha 0 0 0 0 ≠ calcShenSha 1 1 1 1 := by
  norm_num [calcShenSha, tianyiTag, wenchangTag, taohuaTag, yimaTag, plainTag]
  simp

/-- Claim C4 (amended): the evaluator is a deterministic function of the four
draws taken from the Seed-seeded generator; whenever no draw exceeds its
threshold (0.5, 0.4, 0.5, 0.4) the result is exactly the single default
plain tag, and the returned list is never empty. -/
theorem shen_sha_default_and_nonempty (r0 r1 r2 r3 : ℚ) :
    calcShenSha r0 r1 r2 r3 ≠ [] ∧
      (r0 ≤ 1/2 → r1 ≤ 2/5 → r2 ≤ 1/2 → r3 ≤ 2/5 →
        calcShenSha r0 r1 r2 r3 = [plainTag]) := by
  constructor
  · simp only [calcShenSha]
    split_ifs <;> simp_all
  · intro h0 h1 h2 h3
    simp only [calcShenSha, if_neg (not_lt.mpr h0), if_neg (not_lt.mpr h1),
      if_neg (not_lt.mpr h2), if_neg (not_lt.mpr h3), List.append_nil, List.nil_append]
    simp

/-- Witness for the amended C4 theorem at all-zero draws: no rule fires and
exactly the plain tag is returned. -/
theorem shen_sha_default_and_nonempty_witness :
    calcShenSha 0 0 0 0 ≠ [] ∧ calcShenSha 0 0 0 0 = [plainTag] :=
  ⟨(shen_sha_default_and_nonempty 0 0 0 0).1,
   (shen_sha_default_and_nonempty 0 0 0 0).2
     (by norm_num) (by norm_num) (by norm_num) (by norm_num)⟩

/-- Claim C5: archetype selection is a deterministic function of the Seed —
whatever else differs between two engine constructions (pillars, time,
coordinates, gender, the process hash salt, the prior global RNG state,
which line 119's reseeding discards), equal seeds give the same pattern,
and the pattern is one of the fixed seven. -/
theorem pattern_deterministic_in_seed
    (p1 p2 : Pillars) (d1 d2 : String) (h1 h2 m1 m2 : ℕ) (la1 la2 lo1 lo2 : ℚ)
    (ge1 ge2 : String) (H1 H2 : String → ℤ) (g1 g2 : ℤ × ℕ)
    (hseed : (engineInit p1 d1 h1 m1 la1 lo1 ge1 H1 g1).seed =
      (engineInit p2 d2 h2 m2 la2 lo2 ge2 H2 g2).seed) :
    (engineInit p1 d1 h1 m1 la1 lo1 ge1 H1 g1).pattern =
      (engineInit p2 d2 h2 m2 la2 lo2 ge2 H2 g2).pattern ∧
    (engineInit p1 d1 h1 m1 la1 lo1 ge1 H1 g1).pattern ∈ patterns := by
  have e1 : (engineInit p1 d1 h1 m1 la1 lo1 ge1 H1 g1).pattern =
      pickPattern (mtNat (pySeed H1 p1 h1 m1 la1 lo1) 4) := by
    simp only [engineInit]
  have e2 : (engineInit p2 d2 h2 m2 la2 lo2 ge2 H2 g2).pattern =
      pickPattern (mtNat (pySeed H2 p2 h2 m2 la2 lo2) 4) := by
    simp only [engineInit]
  have s1 : (engineInit p1 d1 h1 m1 la1 lo1 ge1 H1 g1).seed = pySeed H1 p1 h1 m1 la1 lo1 := by
    simp only [engineInit]
  have s2 : (engineInit p2 d2 h2 m2 la2 lo2 ge2 H2 g2).seed = pySeed H2 p2 h2 m2 la2 lo2 := by
    simp only [engineInit]
  rw [s1, s2] at hseed
  rw [e1, e2, hseed]
  exact ⟨rfl, pickPattern_mem _⟩

/-- A pillar set whose eight characters are all in the classification
table (甲子 丙寅 戊辰 庚午). -/
def sampleValidPillars : Pillars := ⟨'甲', '子', '丙', '寅', '戊', '辰', '庚', '午'⟩

/-- Witness for C5: two constructions from identical inputs have equal seeds,
and the selected pattern is one of the fixed seven archetypes. -/
theorem pattern_deterministic_in_seed_witness :
    (engineInit sampleValidPillars "木" 0 0 0 0 "男" (fun _ => 0) (0, 0)).pattern =
      (engineInit sampleValidPillars "木" 0 0 0 0 "男" (fun _ => 0) (0, 0)).pattern ∧
    (engineInit sampleValidPillars "木" 0 0 0 0 "男" (fun _ => 0) (0, 0)).pattern ∈ patterns :=
  pattern_deterministic_in_seed sampleValidPillars sampleValidPillars "木" "木" 0 0 0 0
    0 0 0 0 "男" "男" (fun _ => 0) (fun _ => 0) (0, 0) (0, 0) rfl

lemma genLifeAux_cons (P : LifeParams) (wave noise : ℕ → ℚ) (a : ℕ) (rest : List ℕ)
    (pos : ℕ) (price : ℚ) :
    genLifeAux P wave noise (a :: rest) pos price =
      lifeStep P wave noise pos a price ::
        genLifeAux P wave noise rest (pos + 1) (lifeStep P wave noise pos a price).closeV := rfl

lemma genDailyAux_cons (noise : ℕ → ℚ) (i : ℕ) (rest : List ℕ) (price : ℚ) :
    genDailyAux noise (i :: rest) price =
      dailyStep noise i price :: genDailyAux noise rest (dailyStep noise i price).closeV := rfl

/-- Claim C6: every point of the life-path series has high ≥ max(open,
close), low ≤ min(open, close) and close at or above the floor 10, and every
point of the daily-path series satisfies the same with floor 30 — for every
engine parameterization, noise stream and entry stream position. -/
theorem series_shape_invariants :
    (∀ (P : LifeParams) (wave noise : ℕ → ℚ) (pos : ℕ) (pt : LifePoint),
        pt ∈ (generate_life_kline P wave noise pos).1 →
        max pt.openV pt.closeV ≤ pt.highV ∧ pt.lowV ≤ min pt.openV pt.closeV ∧
          10 ≤ pt.closeV) ∧
    (∀ (noise : ℕ → ℚ) (year : ℕ) (pt : DailyPoint),
        pt ∈ generate_daily_kline noise year →
        max pt.openV pt.closeV ≤ pt.highV ∧ pt.lowV ≤ min pt.openV pt.closeV ∧
          30 ≤ pt.closeV) := by
  constructor
  · intro P wave noise pos pt hpt
    exact genLifeAux_shape P wave noise (List.range 101) pos 100 pt hpt
  · intro noise year pt hpt
    exact genDailyAux_shape noise (List.range (if leapRule year then 366 else 365)) 100 pt hpt

/-- The all-zero wave and noise streams, used for witnesses. -/
def zeroStream : ℕ → ℚ := fun _ => 0

/-- The first point of the life-path series for `P3` with zero streams. -/
def lifeWitPoint : LifePoint := lifeStep P3 zeroStream zeroStream 0 0 100

/-- The first point of the 2024 daily-path series with the zero stream. -/
def dailyWitPoint : DailyPoint := dailyStep zeroStream 0 100

/-- Witness for C6: the shape invariants hold at the concrete first points of
a concrete life-path series and of the 2024 daily-path series. -/
theorem series_shape_invariants_witness :
    (max lifeWitPoint.openV lifeWitPoint.closeV ≤ lifeWitPoint.highV ∧
      lifeWitPoint.lowV ≤ min lifeWitPoint.openV lifeWitPoint.closeV ∧
        10 ≤ lifeWitPoint.closeV) ∧
    (max dailyWitPoint.openV dailyWitPoint.closeV ≤ dailyWitPoint.highV ∧
      dailyWitPoint.lowV ≤ min dailyWitPoint.openV dailyWitPoint.closeV ∧
        30 ≤ dailyWitPoint.closeV) :=
  ⟨series_shape_invariants.1 P3 zeroStream zeroStream 0 lifeWitPoint
      (by
        simp only [generate_life_kline]
        rw [List.range_succ_eq_map, genLifeAux_cons]
        exact List.mem_cons_self _ _),
   series_shape_invariants.2 zeroStream 2024 dailyWitPoint
      (by
        have h366 : (if leapRule 2024 then 366 else 365) = 366 := by decide
        simp only [generate_daily_kline, h366]
        rw [List.range_succ_eq_map, genDailyAux_cons]
        exact List.mem_cons_self _ _)⟩

/-- Claim C7: the life-path series always has exactly 101 points (ages
0..100); the daily-path series has exactly 366 points when the target year
satisfies the Gregorian leap rule and exactly 365 points otherwise. -/
theorem series_lengths :
    (∀ (P : LifeParams) (wave noise : ℕ → ℚ) (pos : ℕ),
        (generate_life_kline P wave noise pos).1.length = 101) ∧
    (∀ (noise : ℕ → ℚ) (year : ℕ),
        year % 4 = 0 ∧ (year % 100 ≠ 0 ∨ year % 400 = 0) →
        (generate_daily_kline noise year).length = 366) ∧
    (∀ (noise : ℕ → ℚ) (year : ℕ),
        ¬(year % 4 = 0 ∧ (year % 100 ≠ 0 ∨ year % 400 = 0)) →
        (generate_daily_kline noise year).length = 365) := by
  refine ⟨?_, ?_, ?_⟩
  · intro P wave noise pos
    simp [generate_life_kline, genLifeAux_length]
  · intro noise year h
    have hl : leapRule year = true := by
      simp only [leapRule, Bool.and_eq_true, Bool.or_eq_true, beq_iff_eq, bne_iff_ne]
      exact h
    simp [generate_daily_kline, genDailyAux_length, hl]
  · intro noise year h
    have hl : leapRule year = false := by
      rcases Bool.eq_false_or_eq_true (leapRule year) with h' | h'
      · exfalso
        apply h
        simpa only [leapRule, Bool.and_eq_true, Bool.or_eq_true, beq_iff_eq,
          bne_iff_ne] using h'
      · exact h'
    simp [generate_daily_kline, genDailyAux_length, hl]

/-- Witness for C7: a concrete life-path series has 101 points; 2024 (a leap
year by the rule) yields 366 daily points and 2023 yields 365. -/
theorem series_lengths_witness :
    (generate_life_kline P3 zeroStream zeroStream 0).1.length = 101 ∧
    (generate_daily_kline zeroStream 2024).length = 366 ∧
    (generate_daily_kline zeroStream 2023).length = 365 :=
  ⟨series_lengths.1 P3 zeroStream zeroStream 0,
   series_lengths.2.1 zeroStream 2024 (by norm_num),
   series_lengths.2.2 zeroStream 2023 (by norm_num)⟩

/-- Claim C8: for every pillar set whose eight characters are classified by
the table, the derived element percentages (the spec-modelled normalization
of the counts) sum to 100 within the ±0.1 tolerance — in exact rational
arithmetic the sum is exactly 100. -/
theorem element_percent_sum (p : Pillars) (h : validPillars p = true) :
    |elementPercent (calc_wuxing p) Element.jin + elementPercent (calc_wuxing p) Element.mu +
      elementPercent (calc_wuxing p) Element.shui + elementPercent (calc_wuxing p) Element.huo +
      elementPercent (calc_wuxing p) Element.tu - 100| ≤ 1/10 := by
  have h8 : sumCnt (calc_wuxing p) = 8 := sumCnt_valid p h
  have hc : (calc_wuxing p Element.jin : ℚ) + (calc_wuxing p Element.mu : ℚ) +
      (calc_wuxing p Element.shui : ℚ) + (calc_wuxing p Element.huo : ℚ) +
      (calc_wuxing p Element.tu : ℚ) = 8 := by
    have h9 := h8
    simp only [sumCnt] at h9
    exact_mod_cast h9
  have key : elementPercent (calc_wuxing p) Element.jin +
      elementPercent (calc_wuxing p) Element.mu +
      elementPercent (calc_wuxing p) Element.shui +
      elementPercent (calc_wuxing p) Element.huo +
      elementPercent (calc_wuxing p) Element.tu = 100 := by
    simp only [elementPercent, h8]
    norm_num
    linarith [hc]
  rw [key]
  norm_num

/-- Witness for C8 at a concrete fully classified pillar set. -/
theorem element_percent_sum_witness :
    |elementPercent (calc_wuxing sampleValidPillars) Element.jin +
      elementPercent (calc_wuxing sampleValidPillars) Element.mu +
      elementPercent (calc_wuxing sampleValidPillars) Element.shui +
      elementPercent (calc_wuxing sampleValidPillars) Element.huo +
      elementPercent (calc_wuxing sampleValidPillars) Element.tu - 100| ≤ 1/10 :=
  element_percent_sum sampleValidPillars (by decide)

/-- Claim C9: changing only the gender input of the engine changes neither
the element-strength vector nor the favored element (gender is stored but
never read by `_calc_wuxing` or `_get_favored`, and the seed of line 118
does not include it). -/
theorem gender_noninterference (p : Pillars) (dwx : String) (hour minute : ℕ)
    (lat lng : ℚ) (H : String → ℤ) (g : ℤ × ℕ) (gen1 gen2 : String) :
    (engineInit p dwx hour minute lat lng gen1 H g).wuxing_strength =
      (engineInit p dwx hour minute lat lng gen2 H g).wuxing_strength ∧
    (engineInit p dwx hour minute lat lng gen1 H g).favored =
      (engineInit p dwx hour minute lat lng gen2 H g).favored := by
  constructor
  · simp only [engineInit]
  · simp only [engineInit]

/-- Claim C10: for every pillar set fully classified by the 22-entry table,
each element's count is the plain number of pillar characters mapping to it
(flat weight 1, no stem or month-branch bonus), every count is non-negative,
and the total weight is exactly 8. -/
theorem wuxing_flat_weight (p : Pillars) (h : validPillars p = true) :
    (∀ e : Element, calc_wuxing p e = (pillarChars p).countP (fun c => wxMap c = some e)) ∧
    (∀ e : Element, 0 ≤ calc_wuxing p e) ∧
    sumCnt (calc_wuxing p) = 8 := by
  refine ⟨?_, fun e => Nat.zero_le _, sumCnt_valid p h⟩
  intro e
  have hfold := foldl_addChar_apply (pillarChars p) (fun _ => 0) e
  simpa [calc_wuxing] using hfold

/-- Witness for C10 at a concrete fully classified pillar set. -/
theorem wuxing_flat_weight_witness :
    calc_wuxing sampleValidPillars Element.mu =
      (pillarChars sampleValidPillars).countP (fun c => wxMap c = some Element.mu) ∧
    0 ≤ calc_wuxing sampleValidPillars Element.mu ∧
    sumCnt (calc_wuxing sampleValidPillars) = 8 :=
  ⟨(wuxing_flat_weight sampleValidPillars (by decide)).1 Element.mu,
   (wuxing_flat_weight sampleValidPillars (by decide)).2.1 Element.mu,
   (wuxing_flat_weight sampleValidPillars (by decide)).2.2⟩
